import Mathlib

/-!
Verification of the red/black message transform library (`index.js` of the
ecjsonrpc repository): the JSON-RPC envelope model, the encrypted wire
envelope (`BlackMessage`), the encoder `redToBlack`, the decoder
`blackToRed`, the structural validators `isBlackMsg` / `isJSONRPC`, the
message factories `makeRedHello` / `makeErrorObj`, and the key generator
`makeKey`.

The external cryptographic library calls (eciesjs `encrypt`/`decrypt`,
elliptic's key derivation / ECDSA sign / verify, Node's `sha256` and
`randomBytes`) and the JSON runtime (`JSON.stringify` / `JSON.parse`,
UTF-8 buffer conversion) are modelled as abstract operations collected in
a `Crypto` structure; theorems assume of them exactly the pointwise
correctness facts the real libraries provide.  Node's hex codec
(`Buffer.from(s,'hex')` / `buf.toString('hex')`) is modelled concretely,
including Node's lenient decoding (case-insensitive digits, silent
truncation at the first invalid pair), because the source relies on that
behaviour.
-/

/-- A JSON value, the model of the plain JavaScript objects the library
passes around (JSON-serializable values: the spec's RedMessage and the
duck-typed envelope objects). Numbers are restricted to integers, which
covers every number the protocol uses (ids and error codes). -/
inductive Json where
  | null : Json
  | bool (b : Bool) : Json
  | num (n : Int) : Json
  | str (s : String) : Json
  | arr (elems : List Json) : Json
  | obj (fields : List (String × Json)) : Json

/-- First binding of a key in a field list, as JavaScript property lookup. -/
def findField : List (String × Json) → String → Option Json
  | [], _ => none
  | (k, v) :: rest, key => if k = key then some v else findField rest key

/-- Replace the binding of a key, or append it, as JavaScript property
assignment on an object. -/
def setFields : List (String × Json) → String → Json → List (String × Json)
  | [], key, v => [(key, v)]
  | (k, w) :: rest, key, v =>
      if k = key then (key, v) :: rest else (k, w) :: setFields rest key v

/-- JavaScript property read `obj.key`: `none` models `undefined`
(missing key, or read from a non-object). -/
def Json.getField : Json → String → Option Json
  | Json.obj fields, key => findField fields key
  | _, _ => none

/-- JavaScript property write `obj.key = v` in a pure value semantics;
writes to non-objects are dropped (the source never performs one). -/
def Json.setField : Json → String → Json → Json
  | Json.obj fields, key, v => Json.obj (setFields fields key v)
  | j, _, _ => j

/-- JavaScript loose non-null test `x != null` on a present value. -/
def jsNonNull : Json → Bool
  | Json.null => false
  | _ => true

/-- JavaScript loose non-null test `obj.key != null`, which is false both
for a missing field (`undefined`) and for an explicit `null`. -/
def optNonNull : Option Json → Bool
  | none => false
  | some j => jsNonNull j

/-- JavaScript strict equality `obj.key === s` against a string literal:
true only when the field is present, is a string, and is equal to it. -/
def strictEqStr : Option Json → String → Bool
  | some (Json.str t), s => t = s
  | _, _ => false

/-- A byte, as stored in a Node `Buffer`. -/
abbrev Byte := Fin 256

/-- Value of one hex digit, case-insensitive, as Node's hex decoder
accepts it; `none` for a non-hex character. -/
def hexDigitVal (ch : Char) : Option (Fin 16) :=
  if h1 : 48 ≤ ch.toNat ∧ ch.toNat ≤ 57 then some ⟨ch.toNat - 48, by omega⟩
  else if h2 : 97 ≤ ch.toNat ∧ ch.toNat ≤ 102 then some ⟨ch.toNat - 97 + 10, by omega⟩
  else if h3 : 65 ≤ ch.toNat ∧ ch.toNat ≤ 70 then some ⟨ch.toNat - 65 + 10, by omega⟩
  else none

/-- Lower-case hex digit for a value below 16, as `buf.toString('hex')`
emits (48 is '0', 87 + 10 is 'a'). -/
def hexDigitChar (n : Nat) : Char :=
  if n < 10 then Char.ofNat (48 + n) else Char.ofNat (87 + n)

/-- Character stream of `buf.toString('hex')`: two lower-case digits per
byte, high nibble first. -/
def bytesToHexChars : List Byte → List Char
  | [] => []
  | b :: rest => hexDigitChar (b.val / 16) :: hexDigitChar (b.val % 16) :: bytesToHexChars rest

/-- Node's `buf.toString('hex')`. -/
def bytesToHex (bs : List Byte) : String :=
  String.mk (bytesToHexChars bs)

/-- Node's hex decoding loop: consume two digits per byte and stop
silently at the first invalid or incomplete pair (no error is ever
raised; `Buffer.from('', 'hex')` and `Buffer.from('zz', 'hex')` are both
the empty buffer). -/
def hexPairsToBytes : List Char → List Byte
  | c1 :: c2 :: rest =>
      match hexDigitVal c1, hexDigitVal c2 with
      | some hi, some lo =>
          (⟨16 * hi.val + lo.val, by
              have h1 := hi.isLt
              have h2 := lo.isLt
              omega⟩ : Byte) :: hexPairsToBytes rest
      | _, _ => []
  | _ => []

/-- Node's `Buffer.from(s, 'hex')`. -/
def bufferFromHex (s : String) : List Byte :=
  hexPairsToBytes s.data

theorem hexDigitVal_hexDigitChar : ∀ n : Fin 16, hexDigitVal (hexDigitChar n.val) = some n := by
  decide

/-- Decoding the hex encoding of a buffer recovers the buffer: the hex
layer of the wire envelope is lossless in the encoder-to-decoder
direction. -/
theorem bufferFromHex_bytesToHex (bs : List Byte) : bufferFromHex (bytesToHex bs) = bs := by
  show hexPairsToBytes (bytesToHexChars bs) = bs
  induction bs with
  | nil => rfl
  | cons b rest ih =>
      have hlt := b.isLt
      have hdiv : b.val / 16 < 16 := Nat.div_lt_of_lt_mul (by omega)
      have hmod : b.val % 16 < 16 := Nat.mod_lt _ (by omega)
      have e1 := hexDigitVal_hexDigitChar ⟨b.val / 16, hdiv⟩
      have e2 := hexDigitVal_hexDigitChar ⟨b.val % 16, hmod⟩
      unfold bytesToHexChars hexPairsToBytes
      rw [e1, e2]
      simp only [ih, List.cons.injEq, and_true]
      exact Fin.ext (by simpa [Nat.mul_comm] using Nat.div_add_mod b.val 16)

/-- The external library operations the source calls, collected abstractly:
eciesjs, elliptic's secp256k1 key and signature operations, Node's crypto
hash and entropy source, and the JSON/UTF-8 runtime.  Each field models
one call shape appearing in `index.js`:
* `stringify` / `parse` — `JSON.stringify` / `JSON.parse`;
* `stringToBuf` / `bufToString` — `Buffer.from(str)` and the UTF-8
  coercion applied to a buffer handed to `JSON.parse`;
* `encrypt` / `decrypt` — `ecies.encrypt(pubhex, buf)` and
  `ecies.decrypt(privhex, buf)`, with `none` for a decryption throw;
* `sha256` — `crypto.createHash('sha256').update(buf).digest()`;
* `sign` — `ec.keyFromPrivate(privhex,'hex').sign(hash).toDER()`, i.e. a
  DER-encoded ECDSA signature;
* `verify` — `ec.keyFromPublic(pubhex,'hex').verify(hash, sig)`;
* `validPub` — whether `ec.keyFromPublic(pubhex,'hex')` succeeds;
* `getPublic` — elliptic public-key derivation from a private key, the
  flag selecting compressed (`getPublic(true,'hex')`) versus uncompressed
  (`getPublic().encode('hex')`) encoding;
* `randomBytes` — `crypto.randomBytes(n)`. -/
structure Crypto where
  stringify : Json → String
  parse : String → Option Json
  stringToBuf : String → List Byte
  bufToString : List Byte → String
  encrypt : String → List Byte → List Byte
  decrypt : String → List Byte → Option (List Byte)
  sha256 : List Byte → List Byte
  sign : String → List Byte → List Byte
  verify : String → List Byte → List Byte → Bool
  validPub : String → Bool
  getPublic : Bool → String → String
  randomBytes : Nat → List Byte

/-- `exports.BLACKMSG`: the wire-envelope template. -/
def BLACKMSG : Json :=
  Json.obj [("msghex", Json.str ""), ("sighex", Json.str ""), ("spkhex", Json.str "")]

/-- `exports.REDHELLO`: the unencrypted hello template. -/
def REDHELLO : Json :=
  Json.obj [("jsonrpc", Json.str "2.0"), ("method", Json.str "hello"),
    ("params", Json.arr []), ("id", Json.num 0)]

/-- `exports.REQUEST`: the JSON-RPC request template. -/
def REQUEST : Json :=
  Json.obj [("jsonrpc", Json.str "2.0"), ("method", Json.str ""),
    ("params", Json.arr []), ("id", Json.num 0)]

/-- `exports.RESPONSE`: the JSON-RPC success-response template. -/
def RESPONSE : Json :=
  Json.obj [("jsonrpc", Json.str "2.0"), ("result", Json.obj []), ("id", Json.num 0)]

/-- `exports.ERRORRESPONSE`: the JSON-RPC error-response template. -/
def ERRORRESPONSE : Json :=
  Json.obj [("jsonrpc", Json.str "2.0"),
    ("error", Json.obj [("code", Json.num 0), ("message", Json.str "")]),
    ("id", Json.num 0)]

/-- `exports.makeRedHello`: deep-copy `REDHELLO` through
`JSON.parse(JSON.stringify(...))` and set `params` to the one-element
array holding the session public key.  `none` models the (in practice
impossible) failure of the copy. -/
def makeRedHello (c : Crypto) (sesspubkeyhex : String) : Option Json :=
  match c.parse (c.stringify REDHELLO) with
  | none => none
  | some result => some (result.setField "params" (Json.arr [Json.str sesspubkeyhex]))

/-- `exports.makeErrorObj`: deep-copy `ERRORRESPONSE`, then set
`result.error.code`, `result.error.message` and `result.id`.  The nested
writes go through the copied `error` object, as the source's property
assignments do. -/
def makeErrorObj (c : Crypto) (errcode : Int) (errmessage : String) (idval : Json) : Option Json :=
  match c.parse (c.stringify ERRORRESPONSE) with
  | none => none
  | some result =>
      match result.getField "error" with
      | none => none
      | some errobj =>
          let errobj := (errobj.setField "code" (Json.num errcode)).setField
            "message" (Json.str errmessage)
          some ((result.setField "error" errobj).setField "id" idval)

/-- The failure modes of `blackToRed`, one constructor per throw site of
the source, plus `malformedEnvelope`, the failure mode the specification
postulates for invalid hex (the source has no such throw site; the
constructor exists so that statements about it can be made):
* `typeError` — `Buffer.from(x,'hex')` with `x` missing or not a string;
* `keyFormatError` — `ec.keyFromPublic` throwing on a bad `spkhex`;
* `sigVerificationFailure` — the explicit
  `throw 'Sender verification failure'`;
* `decryptionFailure` — `ecies.decrypt` throwing;
* `deserializationError` — `JSON.parse` throwing on the decrypted text. -/
inductive Err where
  | typeError : Err
  | keyFormatError : Err
  | sigVerificationFailure : Err
  | decryptionFailure : Err
  | deserializationError : Err
  | malformedEnvelope : Err
deriving DecidableEq

/-- `exports.blackToRed`: hex-decode `msghex` and `sighex` (leniently, as
`Buffer.from(-, 'hex')` does), hash the ciphertext, reconstruct the
claimed sender key from `spkhex`, verify the signature over the hash, and
only then decrypt with the recipient's private key and parse the
plaintext. -/
def blackToRed (c : Crypto) (myprivkeyhex : String) (blackobj : Json) : Except Err Json :=
  match blackobj.getField "msghex" with
  | some (Json.str msghex) =>
      let msg := bufferFromHex msghex
      match blackobj.getField "sighex" with
      | some (Json.str sighex) =>
          let sig := bufferFromHex sighex
          let msghash := c.sha256 msg
          match blackobj.getField "spkhex" with
          | some (Json.str spkhex) =>
              if c.validPub spkhex then
                if c.verify spkhex msghash sig then
                  match c.decrypt myprivkeyhex msg with
                  | some red =>
                      match c.parse (c.bufToString red) with
                      | some j => Except.ok j
                      | none => Except.error Err.deserializationError
                  | none => Except.error Err.decryptionFailure
                else Except.error Err.sigVerificationFailure
              else Except.error Err.keyFormatError
          | _ => Except.error Err.typeError
      | _ => Except.error Err.typeError
  | _ => Except.error Err.typeError

/-- `exports.redToBlack`: serialize the red object, encrypt it to the
receiver's public key, hash the ciphertext, sign the hash with the
sender's private key, and package ciphertext, signature and the sender's
compressed public key as hex fields of a copied `BLACKMSG`.  `none`
models the (in practice impossible) failure of the template copy. -/
def redToBlack (c : Crypto) (txprivkeyhex rxpubkeyhex : String) (redobj : Json) : Option Json :=
  let redstr := c.stringify redobj
  let msg := c.encrypt rxpubkeyhex (c.stringToBuf redstr)
  let msghash := c.sha256 msg
  let sig := c.sign txprivkeyhex msghash
  let txpubkeyhex := c.getPublic true txprivkeyhex
  match c.parse (c.stringify BLACKMSG) with
  | none => none
  | some result =>
      some (((result.setField "msghex" (Json.str (bytesToHex msg))).setField
        "sighex" (Json.str (bytesToHex sig))).setField "spkhex" (Json.str txpubkeyhex))

/-- `exports.isBlackMsg`: structural check that the object and its
`msghex`, `sighex`, `spkhex` fields are all non-null. -/
def isBlackMsg (obj : Json) : Bool :=
  jsNonNull obj
    && optNonNull (obj.getField "msghex")
    && optNonNull (obj.getField "sighex")
    && optNonNull (obj.getField "spkhex")

/-- `exports.isJSONRPC`: structural check for a JSON-RPC 2.0 envelope. -/
def isJSONRPC (obj : Json) : Bool :=
  jsNonNull obj
    && optNonNull (obj.getField "jsonrpc")
    && strictEqStr (obj.getField "jsonrpc") "2.0"
    && optNonNull (obj.getField "id")
    && (optNonNull (obj.getField "method")
        || optNonNull (obj.getField "error")
        || optNonNull (obj.getField "result"))

/-- The key pair returned by `exports.makeKey`. -/
structure KeyPair where
  prv : String
  pub : String
deriving DecidableEq

/-- `exports.makeKey`: draw 32 cryptographically secure random bytes,
hex-encode them as the private key, and derive the public key through
`ec.keyFromPrivate(...).getPublic().encode('hex')` — elliptic's
uncompressed encoding, since no compact flag is passed. -/
def makeKey (c : Crypto) : KeyPair :=
  let privkeyhex := bytesToHex (c.randomBytes 32)
  let pubkeyhex := c.getPublic false privkeyhex
  { prv := privkeyhex, pub := pubkeyhex }

/-- Byte of a character, truncated to one byte; the executable stand-in
for UTF-8 encoding on the ASCII strings the tests use. -/
def charByte (ch : Char) : Byte :=
  ⟨ch.toNat % 256, by omega⟩

/-- Byte string of a Lean string under `charByte`. -/
def strBytes (s : String) : List Byte :=
  s.data.map charByte

/-- A structurally faithful but minimal serializer covering exactly the
values concrete test runs touch; distinct on those values. -/
def toyStringify : Json → String
  | Json.null => "null"
  | Json.obj (("msghex", _) :: _) => "Tblack"
  | Json.obj [("jsonrpc", _), ("method", _), _, _] => "Thello"
  | Json.obj [("jsonrpc", _), ("error", _), _] => "Terror"
  | _ => ""

/-- The inverse table of `toyStringify` on the values concrete test runs
touch. -/
def toyParse (s : String) : Option Json :=
  if s = "null" then some Json.null
  else if s = "Tblack" then some BLACKMSG
  else if s = "Thello" then some REDHELLO
  else if s = "Terror" then some ERRORRESPONSE
  else none

/-- A concrete instance of the external-library interface, rich enough to
satisfy the correctness facts the theorems assume, used to evaluate the
embedded functions on closed inputs: encryption appends a marker byte,
hashing is the identity, a signature is the signer's key bytes followed
by the hash, and a public key is the private key with a `C`/`U` prefix
marking compressed versus uncompressed encoding. -/
def toyC : Crypto where
  stringify := toyStringify
  parse := toyParse
  stringToBuf := strBytes
  bufToString := fun bs => String.mk (bs.map (fun b => Char.ofNat b.val))
  encrypt := fun _ pt => pt ++ [⟨171, by omega⟩]
  decrypt := fun _ ct => some ct.dropLast
  sha256 := fun bs => bs
  sign := fun sk h => strBytes sk ++ h
  verify := fun pk h sig => decide (strBytes "C" ++ sig = strBytes pk ++ h)
  validPub := fun _ => true
  getPublic := fun compressed sk => (if compressed then "C" else "U") ++ sk
  randomBytes := fun n => List.replicate n ⟨0, by omega⟩

theorem jsNonNull_eq_true_iff (j : Json) : jsNonNull j = true ↔ j ≠ Json.null := by
  cases j <;> simp [jsNonNull]

theorem strictEqStr_eq_true_iff (v : Option Json) (s : String) :
    strictEqStr v s = true ↔ v = some (Json.str s) := by
  match v with
  | none => simp [strictEqStr]
  | some (Json.str t) => simp [strictEqStr]
  | some Json.null | some (Json.bool _) | some (Json.num _)
  | some (Json.arr _) | some (Json.obj _) => simp [strictEqStr]

/-- C7: `isJSONRPC` accepts exactly the objects that are non-null, carry
`jsonrpc === "2.0"`, a non-null `id`, and at least one non-null `method`,
`error` or `result` field; witnessed on the three example inputs of the
specification. -/
theorem isJSONRPC_characterization :
    (∀ obj : Json, isJSONRPC obj = true ↔
      (obj ≠ Json.null ∧ obj.getField "jsonrpc" = some (Json.str "2.0")
        ∧ optNonNull (obj.getField "id") = true
        ∧ (optNonNull (obj.getField "method") = true
            ∨ optNonNull (obj.getField "error") = true
            ∨ optNonNull (obj.getField "result") = true)))
    ∧ isJSONRPC (Json.obj [("jsonrpc", Json.str "2.0"), ("id", Json.num 1),
        ("method", Json.str "x")]) = true
    ∧ isJSONRPC (Json.obj [("jsonrpc", Json.str "1.0"), ("id", Json.num 1),
        ("method", Json.str "x")]) = false
    ∧ isJSONRPC (Json.obj [("jsonrpc", Json.str "2.0"), ("id", Json.num 1)]) = false := by
  refine ⟨fun obj => ?_, rfl, rfl, rfl⟩
  constructor
  · intro h
    simp only [isJSONRPC, Bool.and_eq_true, Bool.or_eq_true] at h
    obtain ⟨⟨⟨⟨h1, h2⟩, h3⟩, h4⟩, h5⟩ := h
    exact ⟨(jsNonNull_eq_true_iff obj).1 h1, (strictEqStr_eq_true_iff _ _).1 h3, h4, or_assoc.1 h5⟩
  · rintro ⟨h1, h2, h3, h4⟩
    simp only [isJSONRPC, Bool.and_eq_true, Bool.or_eq_true]
    exact ⟨⟨⟨⟨(jsNonNull_eq_true_iff obj).2 h1, by simp [h2, optNonNull, jsNonNull]⟩,
      (strictEqStr_eq_true_iff _ _).2 h2⟩, h3⟩, or_assoc.2 h4⟩

/-- C8: `isBlackMsg` accepts exactly the objects that are non-null with
non-null `msghex`, `sighex` and `spkhex` fields; the example inputs show
acceptance of non-hex field values (no hex or cryptographic validation)
and rejection of a partial object and of null. -/
theorem isBlackMsg_characterization :
    (∀ obj : Json, isBlackMsg obj = true ↔
      (obj ≠ Json.null ∧ optNonNull (obj.getField "msghex") = true
        ∧ optNonNull (obj.getField "sighex") = true
        ∧ optNonNull (obj.getField "spkhex") = true))
    ∧ isBlackMsg (Json.obj [("msghex", Json.str "a"), ("sighex", Json.str "b"),
        ("spkhex", Json.str "c")]) = true
    ∧ isBlackMsg (Json.obj [("msghex", Json.str "a")]) = false
    ∧ isBlackMsg Json.null = false := by
  refine ⟨fun obj => ?_, rfl, rfl, rfl⟩
  simp only [isBlackMsg, Bool.and_eq_true, jsNonNull_eq_true_iff, and_assoc]

/-- C4 counterexample: on a concrete instance of the library interface in
which compressed and uncompressed encodings differ, the public half
produced by `makeKey` is the uncompressed encoding, not the compressed
encoding of the derived private key that the claim asserts. -/
theorem makeKey_not_compressed :
    (makeKey toyC).pub = toyC.getPublic false ((makeKey toyC).prv)
    ∧ (makeKey toyC).pub ≠ toyC.getPublic true ((makeKey toyC).prv) :=
  ⟨rfl, by decide⟩

/-- C4 amended: `makeKey` draws 32 (the secp256k1 private-key length)
random bytes, hex-encodes exactly those bytes as the private key, and
derives the public key from that private key in elliptic's uncompressed
hex encoding (`getPublic().encode('hex')`, no compact flag). -/
theorem makeKey_spec (c : Crypto) :
    (makeKey c).prv = bytesToHex (c.randomBytes 32)
    ∧ bufferFromHex ((makeKey c).prv) = c.randomBytes 32
    ∧ (makeKey c).pub = c.getPublic false ((makeKey c).prv) :=
  ⟨rfl, bufferFromHex_bytesToHex _, rfl⟩

/-- C5 counterexample: an envelope with empty `msghex` and `sighex` does
not make `blackToRed` fail with the `MalformedEnvelope` error the claim
requires; the lenient hex decoder produces empty buffers and the failure
surfaces only at signature verification. -/
theorem blackToRed_emptyHex_not_malformed :
    blackToRed toyC "k2" (Json.obj [("msghex", Json.str ""), ("sighex", Json.str ""),
      ("spkhex", Json.str "Ck1")]) = Except.error Err.sigVerificationFailure
    ∧ blackToRed toyC "k2" (Json.obj [("msghex", Json.str ""), ("sighex", Json.str ""),
      ("spkhex", Json.str "Ck1")]) ≠ Except.error Err.malformedEnvelope := by
  refine ⟨rfl, fun h => ?_⟩
  rw [show blackToRed toyC "k2" (Json.obj [("msghex", Json.str ""), ("sighex", Json.str ""),
      ("spkhex", Json.str "Ck1")]) = Except.error Err.sigVerificationFailure from rfl] at h
  simp at h

/-- C5 amended: `blackToRed` performs no hex validation at all — its hex
decoding is total and lenient (Node `Buffer.from(s,'hex')` semantics:
empty or invalid input silently decodes, truncated at the first invalid
pair), so no input whatsoever produces a `MalformedEnvelope` failure;
garbage hex surfaces later, at signature verification or beyond. -/
theorem blackToRed_never_malformed (c : Crypto) (sk : String) (env : Json) :
    blackToRed c sk env ≠ Except.error Err.malformedEnvelope := by
  intro h
  simp only [blackToRed] at h
  repeat' split at h
  all_goals simp_all

/-- C9: the hello factory returns exactly the hello envelope with
`params` set to the one-element session-key array, and the error factory
returns exactly the error envelope with `code`, `message` and `id` set;
both go through a fresh deep copy of the template (the
`JSON.parse(JSON.stringify(template))` idiom, assumed here to round-trip
on the two concrete templates), so no call mutates shared template
state. -/
theorem factories_exact (c : Crypto) (s : String) (code : Int) (msg : String) (i : Json)
    (hHello : c.parse (c.stringify REDHELLO) = some REDHELLO)
    (hErr : c.parse (c.stringify ERRORRESPONSE) = some ERRORRESPONSE) :
    makeRedHello c s = some (Json.obj [("jsonrpc", Json.str "2.0"),
      ("method", Json.str "hello"), ("params", Json.arr [Json.str s]), ("id", Json.num 0)])
    ∧ makeErrorObj c code msg i = some (Json.obj [("jsonrpc", Json.str "2.0"),
      ("error", Json.obj [("code", Json.num code), ("message", Json.str msg)]),
      ("id", i)]) := by
  constructor
  · unfold makeRedHello
    rw [hHello]
    exact rfl
  · unfold makeErrorObj
    rw [hErr]
    exact rfl

/-- C9 witness: the factory outputs on the specification's example
inputs. -/
theorem factories_exact_witness :
    makeRedHello toyC "abc" = some (Json.obj [("jsonrpc", Json.str "2.0"),
      ("method", Json.str "hello"), ("params", Json.arr [Json.str "abc"]),
      ("id", Json.num 0)])
    ∧ makeErrorObj toyC 404 "not found" (Json.num 7) = some (Json.obj
      [("jsonrpc", Json.str "2.0"),
       ("error", Json.obj [("code", Json.num 404), ("message", Json.str "not found")]),
       ("id", Json.num 7)]) :=
  factories_exact toyC "abc" 404 "not found" (Json.num 7) rfl rfl

/-- C10: the encoder output always carries `msghex`, `sighex` and
`spkhex` as (non-null) strings — the hex encodings of the ciphertext and
the signature and the sender's public key — and therefore always passes
the structural wire-envelope validator `isBlackMsg`. -/
theorem redToBlack_passes_isBlackMsg (c : Crypto) (sk pk : String) (m : Json)
    (hBlack : c.parse (c.stringify BLACKMSG) = some BLACKMSG) :
    ∃ b, redToBlack c sk pk m = some b ∧ isBlackMsg b = true
      ∧ b.getField "msghex"
          = some (Json.str (bytesToHex (c.encrypt pk (c.stringToBuf (c.stringify m)))))
      ∧ b.getField "sighex"
          = some (Json.str (bytesToHex (c.sign sk
              (c.sha256 (c.encrypt pk (c.stringToBuf (c.stringify m)))))))
      ∧ b.getField "spkhex" = some (Json.str (c.getPublic true sk)) := by
  refine ⟨Json.obj [("msghex", Json.str (bytesToHex (c.encrypt pk
      (c.stringToBuf (c.stringify m))))),
    ("sighex", Json.str (bytesToHex (c.sign sk
      (c.sha256 (c.encrypt pk (c.stringToBuf (c.stringify m))))))),
    ("spkhex", Json.str (c.getPublic true sk))], ?_, rfl, rfl, rfl, rfl⟩
  unfold redToBlack
  rw [hBlack]
  exact rfl

/-- C10 witness: a concrete encoder run whose output passes
`isBlackMsg`. -/
theorem redToBlack_passes_isBlackMsg_witness :
    ∃ b, redToBlack toyC "k1" "Cp" Json.null = some b ∧ isBlackMsg b = true
      ∧ b.getField "msghex"
          = some (Json.str (bytesToHex (toyC.encrypt "Cp"
              (toyC.stringToBuf (toyC.stringify Json.null)))))
      ∧ b.getField "sighex"
          = some (Json.str (bytesToHex (toyC.sign "k1"
              (toyC.sha256 (toyC.encrypt "Cp" (toyC.stringToBuf (toyC.stringify Json.null)))))))
      ∧ b.getField "spkhex" = some (Json.str (toyC.getPublic true "k1")) :=
  redToBlack_passes_isBlackMsg toyC "k1" "Cp" Json.null rfl

/-- C3: `sighex` decodes to the DER signature, under the sender's private
key, of the 256-bit hash of exactly the ciphertext bytes that `msghex`
decodes to; whenever signing the plaintext hash would give a different
signature, `sighex` is not a signature of the plaintext hash. -/
theorem sighex_signs_ciphertext_hash (c : Crypto) (sk pk : String) (m : Json)
    (hBlack : c.parse (c.stringify BLACKMSG) = some BLACKMSG) :
    ∃ b ms ss, redToBlack c sk pk m = some b
      ∧ b.getField "msghex" = some (Json.str ms)
      ∧ b.getField "sighex" = some (Json.str ss)
      ∧ bufferFromHex ms = c.encrypt pk (c.stringToBuf (c.stringify m))
      ∧ bufferFromHex ss = c.sign sk (c.sha256 (bufferFromHex ms))
      ∧ (c.sign sk (c.sha256 (bufferFromHex ms))
            ≠ c.sign sk (c.sha256 (c.stringToBuf (c.stringify m)))
          → bufferFromHex ss ≠ c.sign sk (c.sha256 (c.stringToBuf (c.stringify m)))) := by
  have hms : bufferFromHex (bytesToHex (c.encrypt pk (c.stringToBuf (c.stringify m))))
      = c.encrypt pk (c.stringToBuf (c.stringify m)) := bufferFromHex_bytesToHex _
  have hss : bufferFromHex (bytesToHex (c.sign sk
        (c.sha256 (c.encrypt pk (c.stringToBuf (c.stringify m))))))
      = c.sign sk (c.sha256 (c.encrypt pk (c.stringToBuf (c.stringify m))))
      := bufferFromHex_bytesToHex _
  refine ⟨Json.obj [("msghex", Json.str (bytesToHex (c.encrypt pk
      (c.stringToBuf (c.stringify m))))),
    ("sighex", Json.str (bytesToHex (c.sign sk
      (c.sha256 (c.encrypt pk (c.stringToBuf (c.stringify m))))))),
    ("spkhex", Json.str (c.getPublic true sk))],
    bytesToHex (c.encrypt pk (c.stringToBuf (c.stringify m))),
    bytesToHex (c.sign sk (c.sha256 (c.encrypt pk (c.stringToBuf (c.stringify m))))),
    ?_, rfl, rfl, hms, ?_, ?_⟩
  · unfold redToBlack
    rw [hBlack]
    exact rfl
  · rw [hss, hms]
  · intro hne heq
    rw [hms] at hne
    rw [hss] at heq
    exact hne heq

/-- C3 witness: a concrete encoder run exhibiting the signature-over-
ciphertext-hash relation between the envelope fields. -/
theorem sighex_signs_ciphertext_hash_witness :
    ∃ b ms ss, redToBlack toyC "k1" "Cp" Json.null = some b
      ∧ b.getField "msghex" = some (Json.str ms)
      ∧ b.getField "sighex" = some (Json.str ss)
      ∧ bufferFromHex ms = toyC.encrypt "Cp" (toyC.stringToBuf (toyC.stringify Json.null))
      ∧ bufferFromHex ss = toyC.sign "k1" (toyC.sha256 (bufferFromHex ms))
      ∧ (toyC.sign "k1" (toyC.sha256 (bufferFromHex ms))
            ≠ toyC.sign "k1" (toyC.sha256 (toyC.stringToBuf (toyC.stringify Json.null)))
          → bufferFromHex ss ≠ toyC.sign "k1"
              (toyC.sha256 (toyC.stringToBuf (toyC.stringify Json.null)))) :=
  sighex_signs_ciphertext_hash toyC "k1" "Cp" Json.null rfl

/-- Evaluation of the decoder on an envelope literal with string fields:
the field reads and the hex decoding reduce definitionally, leaving the
verification-before-decryption control flow. -/
theorem blackToRed_obj (c : Crypto) (sk ms ss spk : String) :
    blackToRed c sk (Json.obj [("msghex", Json.str ms), ("sighex", Json.str ss),
      ("spkhex", Json.str spk)]) =
    (if c.validPub spk then
      if c.verify spk (c.sha256 (bufferFromHex ms)) (bufferFromHex ss) then
        match c.decrypt sk (bufferFromHex ms) with
        | some red =>
            match c.parse (c.bufToString red) with
            | some j => Except.ok j
            | none => Except.error Err.deserializationError
        | none => Except.error Err.decryptionFailure
      else Except.error Err.sigVerificationFailure
    else Except.error Err.keyFormatError) := rfl

/-- C1: decoding an encoded message round-trips.  The hypotheses are the
pointwise correctness facts of the external libraries at the values this
run touches: the template copy round-trips, the sender's compressed
public key parses and verifies its own signatures, the recipient's
private key decrypts what was encrypted to the matching public key
(`pkB` being the valid counterpart of `skB` enters exactly here), and the
JSON/UTF-8 layer round-trips on the serialized message. -/
theorem blackToRed_redToBlack_roundtrip (c : Crypto) (skA skB pkB : String) (m : Json)
    (hBlack : c.parse (c.stringify BLACKMSG) = some BLACKMSG)
    (hValidPub : c.validPub (c.getPublic true skA) = true)
    (hVerify : c.verify (c.getPublic true skA)
        (c.sha256 (c.encrypt pkB (c.stringToBuf (c.stringify m))))
        (c.sign skA (c.sha256 (c.encrypt pkB (c.stringToBuf (c.stringify m))))) = true)
    (hDecrypt : c.decrypt skB (c.encrypt pkB (c.stringToBuf (c.stringify m)))
        = some (c.stringToBuf (c.stringify m)))
    (hBufStr : c.bufToString (c.stringToBuf (c.stringify m)) = c.stringify m)
    (hParse : c.parse (c.stringify m) = some m) :
    ∃ b, redToBlack c skA pkB m = some b ∧ blackToRed c skB b = Except.ok m := by
  refine ⟨Json.obj [("msghex", Json.str (bytesToHex (c.encrypt pkB
      (c.stringToBuf (c.stringify m))))),
    ("sighex", Json.str (bytesToHex (c.sign skA
      (c.sha256 (c.encrypt pkB (c.stringToBuf (c.stringify m))))))),
    ("spkhex", Json.str (c.getPublic true skA))], ?_, ?_⟩
  · unfold redToBlack
    rw [hBlack]
    exact rfl
  · rw [blackToRed_obj, bufferFromHex_bytesToHex, bufferFromHex_bytesToHex]
    simp [hValidPub, hVerify, hDecrypt, hBufStr, hParse]

/-- C1 witness: a concrete encode/decode run recovering the original
message. -/
theorem blackToRed_redToBlack_roundtrip_witness :
    ∃ b, redToBlack toyC "k1" "Cp" Json.null = some b
      ∧ blackToRed toyC "k2" b = Except.ok Json.null :=
  blackToRed_redToBlack_roundtrip toyC "k1" "k2" "Cp" Json.null rfl rfl rfl rfl rfl rfl

/-- C2: on any envelope whose fields are present, a valid claimed sender
key and a failing signature check make `blackToRed` fail with the
signature-verification error, and the result is the same whatever the
decryption function is — decryption with the recipient's private key is
never consulted on an unauthenticated envelope. -/
theorem blackToRed_verify_before_decrypt (c : Crypto)
    (d : String → List Byte → Option (List Byte)) (sk : String) (env : Json)
    (ms ss spk : String)
    (h1 : env.getField "msghex" = some (Json.str ms))
    (h2 : env.getField "sighex" = some (Json.str ss))
    (h3 : env.getField "spkhex" = some (Json.str spk))
    (h4 : c.validPub spk = true)
    (h5 : c.verify spk (c.sha256 (bufferFromHex ms)) (bufferFromHex ss) = false) :
    blackToRed { c with decrypt := d } sk env = Except.error Err.sigVerificationFailure := by
  simp only [blackToRed, h1, h2, h3]
  simp [h4, h5]

/-- C2 witness: a concrete unauthenticated envelope rejected with the
signature error under a decryption function that always fails. -/
theorem blackToRed_verify_before_decrypt_witness :
    blackToRed { toyC with decrypt := fun _ _ => none } "k2"
      (Json.obj [("msghex", Json.str ""), ("sighex", Json.str ""),
        ("spkhex", Json.str "Ck1")]) = Except.error Err.sigVerificationFailure :=
  blackToRed_verify_before_decrypt toyC (fun _ _ => none) "k2"
    (Json.obj [("msghex", Json.str ""), ("sighex", Json.str ""),
      ("spkhex", Json.str "Ck1")]) "" "" "Ck1" rfl rfl rfl rfl rfl

/-- C6 counterexample: in a valid envelope produced by `redToBlack`,
changing the single byte at index 8 of `msghex` from `a` to `A` is a
one-byte modification after which `blackToRed` does not fail at all: the
case-insensitive hex decoder yields the identical ciphertext and the
original plaintext is returned. -/
theorem tamper_case_flip_counterexample :
    redToBlack toyC "k1" "Cp" Json.null = some (Json.obj
      [("msghex", Json.str "6e756c6cab"), ("sighex", Json.str "6b316e756c6cab"),
       ("spkhex", Json.str "Ck1")])
    ∧ blackToRed toyC "k2" (Json.obj
      [("msghex", Json.str "6e756c6cAb"), ("sighex", Json.str "6b316e756c6cab"),
       ("spkhex", Json.str "Ck1")]) = Except.ok Json.null :=
  ⟨rfl, rfl⟩

/-- C6 amended: a byte flip in `msghex` or `sighex` that changes the
decoded bytes makes `blackToRed` fail with the signature-verification
error (assuming the signature scheme admits no other valid signature and
the hash is collision-free for the sender's key), while a flip that
leaves the decoded bytes unchanged — a hex-digit case change — returns
the original plaintext; in neither case is a modified plaintext
returned. -/
theorem tamper_sigver_or_original (c : Crypto) (skA skB pkB : String) (m : Json)
    (msB ssB : String)
    (hValidPub : c.validPub (c.getPublic true skA) = true)
    (hStrict : ∀ h s, c.verify (c.getPublic true skA) h s = true → s = c.sign skA h)
    (hShaInj : ∀ x y, c.sha256 x = c.sha256 y → x = y)
    (hSignInj : ∀ h1 h2, c.sign skA h1 = c.sign skA h2 → h1 = h2)
    (hDecrypt : c.decrypt skB (c.encrypt pkB (c.stringToBuf (c.stringify m)))
        = some (c.stringToBuf (c.stringify m)))
    (hBufStr : c.bufToString (c.stringToBuf (c.stringify m)) = c.stringify m)
    (hParse : c.parse (c.stringify m) = some m) :
    (bufferFromHex ssB
        = c.sign skA (c.sha256 (c.encrypt pkB (c.stringToBuf (c.stringify m))))
      → bufferFromHex msB ≠ c.encrypt pkB (c.stringToBuf (c.stringify m))
      → blackToRed c skB (Json.obj [("msghex", Json.str msB), ("sighex", Json.str ssB),
          ("spkhex", Json.str (c.getPublic true skA))])
          = Except.error Err.sigVerificationFailure)
    ∧ (bufferFromHex msB = c.encrypt pkB (c.stringToBuf (c.stringify m))
      → bufferFromHex ssB
          ≠ c.sign skA (c.sha256 (c.encrypt pkB (c.stringToBuf (c.stringify m))))
      → blackToRed c skB (Json.obj [("msghex", Json.str msB), ("sighex", Json.str ssB),
          ("spkhex", Json.str (c.getPublic true skA))])
          = Except.error Err.sigVerificationFailure)
    ∧ ((bufferFromHex msB = c.encrypt pkB (c.stringToBuf (c.stringify m))
        ∨ bufferFromHex ssB
            = c.sign skA (c.sha256 (c.encrypt pkB (c.stringToBuf (c.stringify m)))))
      → ∀ r, blackToRed c skB (Json.obj [("msghex", Json.str msB), ("sighex", Json.str ssB),
          ("spkhex", Json.str (c.getPublic true skA))]) = Except.ok r → r = m) := by
  refine ⟨?_, ?_, ?_⟩
  · intro hss hms
    rw [blackToRed_obj, if_pos hValidPub]
    have hv : c.verify (c.getPublic true skA) (c.sha256 (bufferFromHex msB))
        (bufferFromHex ssB) = false := by
      cases hb : c.verify (c.getPublic true skA) (c.sha256 (bufferFromHex msB))
          (bufferFromHex ssB) with
      | false => rfl
      | true =>
          exfalso
          exact hms (hShaInj _ _ (hSignInj _ _ (hss.symm.trans (hStrict _ _ hb)))).symm
    rw [hv]
    exact rfl
  · intro hms hss
    rw [blackToRed_obj, if_pos hValidPub]
    have hv : c.verify (c.getPublic true skA) (c.sha256 (bufferFromHex msB))
        (bufferFromHex ssB) = false := by
      cases hb : c.verify (c.getPublic true skA) (c.sha256 (bufferFromHex msB))
          (bufferFromHex ssB) with
      | false => rfl
      | true =>
          exfalso
          have h2 := hStrict _ _ hb
          rw [hms] at h2
          exact hss h2
    rw [hv]
    exact rfl
  · intro hor r hok
    rw [blackToRed_obj, if_pos hValidPub] at hok
    cases hb : c.verify (c.getPublic true skA) (c.sha256 (bufferFromHex msB))
        (bufferFromHex ssB) with
    | false =>
        rw [hb] at hok
        simp at hok
    | true =>
        have hsg := hStrict _ _ hb
        have hmsct : bufferFromHex msB = c.encrypt pkB (c.stringToBuf (c.stringify m)) := by
          cases hor with
          | inl h => exact h
          | inr h => exact (hShaInj _ _ (hSignInj _ _ (h.symm.trans hsg))).symm
        rw [hb] at hok
        rw [hmsct] at hok
        simp only [hDecrypt, hBufStr, hParse, if_true] at hok
        exact (Except.ok.inj hok).symm

/-- C6 amended witness: the three cases instantiated on the concrete
tampered envelope of the counterexample run, under the concrete library
instance (whose toy signature scheme is strict and whose toy hash is
injective). -/
theorem tamper_sigver_or_original_witness :
    (bufferFromHex "6b316e756c6cab"
        = toyC.sign "k1" (toyC.sha256 (toyC.encrypt "Cp"
            (toyC.stringToBuf (toyC.stringify Json.null))))
      → bufferFromHex "6e756c6cAb" ≠ toyC.encrypt "Cp"
            (toyC.stringToBuf (toyC.stringify Json.null))
      → blackToRed toyC "k2" (Json.obj [("msghex", Json.str "6e756c6cAb"),
          ("sighex", Json.str "6b316e756c6cab"),
          ("spkhex", Json.str (toyC.getPublic true "k1"))])
          = Except.error Err.sigVerificationFailure)
    ∧ (bufferFromHex "6e756c6cAb" = toyC.encrypt "Cp"
            (toyC.stringToBuf (toyC.stringify Json.null))
      → bufferFromHex "6b316e756c6cab"
          ≠ toyC.sign "k1" (toyC.sha256 (toyC.encrypt "Cp"
              (toyC.stringToBuf (toyC.stringify Json.null))))
      → blackToRed toyC "k2" (Json.obj [("msghex", Json.str "6e756c6cAb"),
          ("sighex", Json.str "6b316e756c6cab"),
          ("spkhex", Json.str (toyC.getPublic true "k1"))])
          = Except.error Err.sigVerificationFailure)
    ∧ ((bufferFromHex "6e756c6cAb" = toyC.encrypt "Cp"
            (toyC.stringToBuf (toyC.stringify Json.null))
        ∨ bufferFromHex "6b316e756c6cab"
            = toyC.sign "k1" (toyC.sha256 (toyC.encrypt "Cp"
                (toyC.stringToBuf (toyC.stringify Json.null)))))
      → ∀ r, blackToRed toyC "k2" (Json.obj [("msghex", Json.str "6e756c6cAb"),
          ("sighex", Json.str "6b316e756c6cab"),
          ("spkhex", Json.str (toyC.getPublic true "k1"))]) = Except.ok r
          → r = Json.null) :=
  tamper_sigver_or_original toyC "k1" "k2" "Cp" Json.null "6e756c6cAb" "6b316e756c6cab"
    rfl
    (fun h s hv => by
      have h2 : charByte 'C' :: s = charByte 'C' :: charByte 'k' :: charByte '1' :: h :=
        of_decide_eq_true hv
      exact (List.cons.inj h2).2)
    (fun x y h => h)
    (fun h1 h2 e => List.append_cancel_left e)
    rfl rfl rfl
